import Mathlib

/-!
Verification development for the weather-icon chat application
(`streamlit_app.py`): a shallow embedding of its location-resolution,
weather-fetch, icon-mapping and chat-transcript logic, with theorems
settling the specified behavioural claims.

Modelling conventions:
* Python `None` becomes `Option.none`; a JSON field that may be absent or
  null is an `Option` field.
* A network call that may fail (exception, timeout, non-ok status) is
  modelled by passing its would-be parsed response as an `Option` argument:
  `none` means the request raised or returned a non-success status and the
  surrounding `try/except` (or `r.ok` check) discarded it.
* Python floats for coordinates/temperatures are modelled as `Rat`.
* Python truthiness on a string field (`if city and country`) is the
  predicate "present and non-empty".
-/

/- ---------------- Data model ---------------- -/

/-- The `st.session_state.geo` dictionary: resolved place plus optional
network metadata.  `name`/`country` are `Option String` because the
geocoding path stores `res.get("name")`/`res.get("country")`, which can be
`None`. -/
structure PlaceRecord where
  name : Option String
  country : Option String
  lat : Rat
  lon : Rat
  ip : Option String
  org : Option String
deriving DecidableEq, Repr

/-- One entry of `st.session_state.messages`. -/
structure ChatMessage where
  role : String
  content : String
deriving DecidableEq, Repr

/- ---------------- IconMapper (src lines 49..70, `weather_icon`) ---------------- -/

/-- Source translation of `weather_icon` (src/streamlit_app.py lines 49-70):
WMO weather code plus day flag to display glyph.  `day = (is_day == 1)`
becomes a `Bool` let-binding; Python tuple membership becomes list
membership over `Int`. -/
def weather_icon (code : Option Int) (is_day : Option Int) : String :=
  match code with
  | none => "🌐"
  | some c =>
    let day : Bool := is_day == some 1
    if c = 0 then (if day then "☀️" else "🌙")
    else if c ∈ ([1, 2] : List Int) then (if day then "🌤️" else "🌙")
    else if c = 3 then "☁️"
    else if c ∈ ([45, 48] : List Int) then "🌫️"
    else if c ∈ ([51, 53, 55, 61, 63, 65, 80, 81, 82] : List Int) then "🌧️"
    else if c ∈ ([56, 57, 66, 67] : List Int) then "🌧️"
    else if c ∈ ([71, 73, 75, 77, 85, 86] : List Int) then "❄️"
    else if c ∈ ([95, 96, 99] : List Int) then "⛈️"
    else "🌦️"

/-- The code-to-glyph table exactly as the spec's §4.4 bullet list states
it, written from the spec's words so that `weather_icon` can be compared
against it (refinement). -/
def IconMapper_map_spec (code : Option Int) (is_day : Option Int) : String :=
  match code with
  | none => "🌐"
  | some c =>
    if c = 0 then (if is_day = some 1 then "☀️" else "🌙")
    else if c = 1 ∨ c = 2 then (if is_day = some 1 then "🌤️" else "🌙")
    else if c = 3 then "☁️"
    else if c = 45 ∨ c = 48 then "🌫️"
    else if c = 51 ∨ c = 53 ∨ c = 55 ∨ c = 61 ∨ c = 63 ∨ c = 65 ∨ c = 80 ∨ c = 81 ∨ c = 82 then "🌧️"
    else if c = 56 ∨ c = 57 ∨ c = 66 ∨ c = 67 then "🌧️"
    else if c = 71 ∨ c = 73 ∨ c = 75 ∨ c = 77 ∨ c = 85 ∨ c = 86 then "❄️"
    else if c = 95 ∨ c = 96 ∨ c = 99 then "⛈️"
    else "🌦️"

/-- Shared helper: the source's `weather_icon` coincides with the spec's
table on every input. -/
theorem weather_icon_eq_table (code is_day : Option Int) :
    weather_icon code is_day = IconMapper_map_spec code is_day := by
  cases code with
  | none => rfl
  | some c =>
    simp only [weather_icon, IconMapper_map_spec, List.mem_cons,
      List.not_mem_nil, or_false, beq_iff_eq]

/-- C1: `weather_icon` reproduces the spec's code-to-glyph table exactly:
absent code gives the unknown glyph; code 0 gives sun by day and moon
otherwise; codes 1,2 give partly-sunny by day and moon otherwise; 3 the
cloud; 45,48 fog; 51,53,55,61,63,65,80,81,82 and 56,57,66,67 rain;
71,73,75,77,85,86 snow; 95,96,99 thunderstorm; everything else the generic
rain-cloud glyph. -/
theorem iconMapper_matches_spec_table (code is_day : Option Int) :
    weather_icon code is_day = IconMapper_map_spec code is_day :=
  weather_icon_eq_table code is_day

/-- C8: for every present condition code outside {0,1,2}, the glyph is
independent of `is_day` (0, 1 or absent): the day flag only matters in the
clear and partly-clear branches. -/
theorem iconMapper_ignores_day_outside_clear (c : Int) (d1 d2 : Option Int)
    (h : c ∉ ([0, 1, 2] : List Int)) :
    weather_icon (some c) d1 = weather_icon (some c) d2 := by
  simp only [List.mem_cons, List.not_mem_nil, or_false, not_or] at h
  obtain ⟨h0, h1, h2⟩ := h
  rw [weather_icon_eq_table, weather_icon_eq_table]
  simp [IconMapper_map_spec, h0, h1, h2]

/-- Witness for C8 at code 61 (rain) with day vs. night. -/
theorem iconMapper_ignores_day_outside_clear_witness :
    weather_icon (some 61) (some 1) = weather_icon (some 61) (some 0) :=
  iconMapper_ignores_day_outside_clear 61 (some 1) (some 0) (by decide)

/- ---------------- IpLocationResolver (src lines 76..126, `detect_location_by_ip`) ---------------- -/

/-- Parsed JSON body of provider A (`ipapi.co/json`), fields as read by the
source: `city`, `country_name`, `latitude`, `longitude`, `ip`, `org`,
`asn`. -/
structure IpapiResp where
  city : Option String
  country_name : Option String
  latitude : Option Rat
  longitude : Option Rat
  ip : Option String
  org : Option String
  asn : Option String
deriving DecidableEq, Repr

/-- Parsed JSON body of provider B (`ipwho.is`), fields as read by the
source: `success`, `city`, `country`, `latitude`, `longitude`, `ip`,
`connection.isp` (flattened; an absent `connection` object yields `none`
just as `.get("connection", \x7b\x7d).get("isp")` yields `None`). -/
structure IpwhoResp where
  success : Bool
  city : Option String
  country : Option String
  latitude : Option Rat
  longitude : Option Rat
  ip : Option String
  isp : Option String
deriving DecidableEq, Repr

/-- Python `a or b` on two optional strings: the first operand if it is
present and non-empty (truthy), otherwise the second. Models
`j.get("org") or j.get("asn")`. -/
def pyOr (a b : Option String) : Option String :=
  match a with
  | none => b
  | some s => if s = "" then b else some s

/-- Python truthiness of an optional string: present and non-empty. -/
def truthyStr : Option String → Bool
  | none => false
  | some s => !(s == "")

/-- First leg of `detect_location_by_ip` (src lines 82-102): consult
provider A; build a record iff `city and country` are truthy and
`lat`/`lon` are not `None`.  The argument is `none` when the request
raised or `r.ok` was false. -/
def tryProviderA : Option IpapiResp → Option PlaceRecord
  | none => none
  | some j =>
    match j.latitude, j.longitude with
    | some lat, some lon =>
      if truthyStr j.city && truthyStr j.country_name then
        some ⟨j.city, j.country_name, lat, lon, j.ip, pyOr j.org j.asn⟩
      else none
    | _, _ => none

/-- Second leg of `detect_location_by_ip` (src lines 104-125): consult
provider B; requires the `success` flag, truthy `city`/`country`, and
non-`None` `lat`/`lon`. -/
def tryProviderB : Option IpwhoResp → Option PlaceRecord
  | none => none
  | some j =>
    if j.success then
      match j.latitude, j.longitude with
      | some lat, some lon =>
        if truthyStr j.city && truthyStr j.country then
          some ⟨j.city, j.country, lat, lon, j.ip, j.isp⟩
        else none
      | _, _ => none
    else none

/-- `detect_location_by_ip` (src lines 76-126): provider A first; on any
failure or incomplete record, fall through to provider B; `none` when both
fail. -/
def detect_location_by_ip (ra : Option IpapiResp) (rb : Option IpwhoResp) :
    Option PlaceRecord :=
  match tryProviderA ra with
  | some p => some p
  | none => tryProviderB rb

/-- A provider-A response whose four location fields are all present and
non-null, but whose `city` is the empty string (falsy in Python). -/
def ipapiEmptyCity : IpapiResp :=
  ⟨some "", some "South Korea", some 37, some 127, some "1.2.3.4", some "KT", none⟩

/-- C2 counterexample: `ipapiEmptyCity` has city, country, latitude and
longitude all present and non-null, so per the claim the resolver must
return a record built from provider A without consulting provider B; the
code instead rejects it (empty string is falsy) and, provider B failing
here, returns `none`. -/
theorem ipResolver_completeness_counterexample :
    ipapiEmptyCity.city.isSome = true ∧
    ipapiEmptyCity.country_name.isSome = true ∧
    ipapiEmptyCity.latitude.isSome = true ∧
    ipapiEmptyCity.longitude.isSome = true ∧
    detect_location_by_ip (some ipapiEmptyCity) none = none := by
  decide

/-- C2 (amended): provider A is tried first; if and only if A responded
with truthy (present, non-empty) `city` and `country` and non-null
`latitude` and `longitude`, the result is a record built from A's fields
(with `ip` and `org`-else-`asn`), independent of provider B; otherwise B
is tried under the same check plus its `success` flag; if both legs fail
the result is absent.  Totality of the definitions reflects that no
exception escapes. -/
theorem ipResolver_fallback_chain (ra : Option IpapiResp) (rb rb2 : Option IpwhoResp) :
    (∀ j lat lon, ra = some j → j.latitude = some lat → j.longitude = some lon →
      truthyStr j.city = true → truthyStr j.country_name = true →
      detect_location_by_ip ra rb =
        some ⟨j.city, j.country_name, lat, lon, j.ip, pyOr j.org j.asn⟩ ∧
      detect_location_by_ip ra rb = detect_location_by_ip ra rb2) ∧
    (tryProviderA ra = none →
      detect_location_by_ip ra rb = tryProviderB rb) ∧
    (∀ j lat lon, rb = some j → tryProviderA ra = none →
      j.success = true → j.latitude = some lat → j.longitude = some lon →
      truthyStr j.city = true → truthyStr j.country = true →
      detect_location_by_ip ra rb =
        some ⟨j.city, j.country, lat, lon, j.ip, j.isp⟩) ∧
    (tryProviderA ra = none → tryProviderB rb = none →
      detect_location_by_ip ra rb = none) := by
  have hA : ∀ j lat lon, ra = some j → j.latitude = some lat → j.longitude = some lon →
      truthyStr j.city = true → truthyStr j.country_name = true →
      tryProviderA ra = some ⟨j.city, j.country_name, lat, lon, j.ip, pyOr j.org j.asn⟩ := by
    intro j lat lon hra hlat hlon hcity hcountry
    subst hra
    simp [tryProviderA, hlat, hlon, hcity, hcountry]
  refine ⟨?_, ?_, ?_, ?_⟩
  · intro j lat lon hra hlat hlon hcity hcountry
    have h1 := hA j lat lon hra hlat hlon hcity hcountry
    constructor
    · simp [detect_location_by_ip, h1]
    · simp [detect_location_by_ip, h1]
  · intro h
    simp [detect_location_by_ip, h]
  · intro j lat lon hrb hA0 hs hlat hlon hcity hcountry
    subst hrb
    simp [detect_location_by_ip, hA0, tryProviderB, hs, hlat, hlon, hcity, hcountry]
  · intro h1 h2
    simp [detect_location_by_ip, h1, h2]

/-- A fully populated provider-A response. -/
def ipapiComplete : IpapiResp :=
  ⟨some "Seoul", some "South Korea", some 37, some 127, some "1.2.3.4", some "KT", none⟩

/-- Witness for the amended C2 at a complete provider-A response: the
record is built from A and provider B is never consulted. -/
theorem ipResolver_fallback_chain_witness :
    detect_location_by_ip (some ipapiComplete) none =
      some ⟨some "Seoul", some "South Korea", 37, 127, some "1.2.3.4", some "KT"⟩ :=
  (((ipResolver_fallback_chain (some ipapiComplete) none none).1
    ipapiComplete 37 127 rfl rfl rfl (by decide) (by decide)).1)

/- ---------------- GeocodeResolver (src lines 8..26 and the apply guard at 176..177) ---------------- -/

/-- One entry of the geocoding API's `results` array, fields as read by the
source: `name` and `country` via `.get` (may be null), `latitude` and
`longitude` via indexing (a missing key raises and is swallowed into a
`none` response, so they are plain `Rat` here). -/
structure GeoResult where
  name : Option String
  country : Option String
  lat : Rat
  lon : Rat
deriving DecidableEq, Repr

/-- `geocode_city` (src lines 8-26): `none` response means the request
raised, timed out or had a non-success status; `some rs` is the parsed
`results` list (`data.get("results")` falsy, i.e. missing or empty, is the
empty list).  Returns the first result, else `None`. -/
def geocode_city : Option (List GeoResult) → Option GeoResult
  | none => none
  | some [] => none
  | some (res :: _) => some ⟨res.name, res.country, res.lat, res.lon⟩

/-- Python `str.strip()` with no argument (whitespace stripping), modelled
structurally over the character list. -/
def pyStrip (s : String) : String :=
  String.mk ((s.data.dropWhile Char.isWhitespace).reverse.dropWhile Char.isWhitespace).reverse

/-- `GeocodeResolver.resolve`: in the program, `geocode_city` is only ever
reached through the apply-handler guard `if apply_manual and
manual_loc.strip():` (src line 176), so an input that strips to the empty
string issues no request.  First component: whether a network call is
issued; second: the resolution result. -/
def geocode_resolve (name : String) (resp : Option (List GeoResult)) :
    Bool × Option GeoResult :=
  if pyStrip name = "" then (false, none)
  else (true, geocode_city resp)

/-- C4: resolving an empty or whitespace-only place name issues no network
call and returns absent. -/
theorem geocode_empty_no_call (name : String) (resp : Option (List GeoResult))
    (h : pyStrip name = "") :
    geocode_resolve name resp = (false, none) := by
  simp [geocode_resolve, h]

/-- Witness for C4 at a whitespace-only input. -/
theorem geocode_empty_no_call_witness :
    geocode_resolve "   " none = (false, none) :=
  geocode_empty_no_call "   " none (by decide)

/- ---------------- LocationState establishment and fallback (src lines 144..168) ---------------- -/

/-- The hardcoded fallback place (src lines 160-167): `서울, 대한민국` with
the Seoul coordinates and no network metadata. -/
def seoul_fallback : PlaceRecord :=
  ⟨some "서울", some "대한민국", 37.5665, 126.9780, none, none⟩

/-- One render pass over src lines 144-168: if `geo` is not yet in the
session state or the refresh button was pressed, `geo` is set to the IP
detection result; a falsy (`None`) `geo` is then replaced by the hardcoded
fallback. -/
def render_geo (prev : Option PlaceRecord) (refresh : Bool)
    (ipResult : Option PlaceRecord) : PlaceRecord :=
  let g := if prev.isNone || refresh then ipResult else prev
  match g with
  | some p => p
  | none => seoul_fallback

/-- C5 counterexample: when IP detection fails on first render, the
fallback record stored in the session is named `서울, 대한민국`, not the
claim's literal strings `"Seoul"`/`"South Korea"`. -/
theorem fallback_not_english_counterexample :
    (render_geo none false none).name ≠ some "Seoul" ∧
    (render_geo none false none).country ≠ some "South Korea" ∧
    (render_geo none false none).lat = 37.5665 ∧
    (render_geo none false none).lon = 126.9780 := by
  refine ⟨by decide, by decide, by norm_num [render_geo, seoul_fallback], by norm_num [render_geo, seoul_fallback]⟩

/-- C5 (amended): whenever IP resolution runs (no stored location yet, or
the refresh button pressed) and returns absent, the session location is
set to the hardcoded fallback `name="서울"` (Seoul), `country="대한민국"`
(South Korea), lat=37.5665, lon=126.9780. -/
theorem fallback_on_failed_resolution (prev : Option PlaceRecord) (refresh : Bool)
    (h : prev = none ∨ refresh = true) :
    render_geo prev refresh none =
      ⟨some "서울", some "대한민국", 37.5665, 126.9780, none, none⟩ := by
  rcases h with h | h
  · subst h; rfl
  · subst h; cases prev <;> rfl

/-- Witness for the amended C5 on a first render with failed detection. -/
theorem fallback_on_failed_resolution_witness :
    render_geo none false none =
      ⟨some "서울", some "대한민국", 37.5665, 126.9780, none, none⟩ :=
  fallback_on_failed_resolution none false (Or.inl rfl)

/- ---------------- Manual location apply (src lines 176..185) ---------------- -/

/-- Outcome shown to the user by the apply handler. -/
inductive ApplyFeedback
  | successMsg
  | warningMsg
  | nothingShown
deriving DecidableEq, Repr

/-- Overwrite only the place fields of the session record with a geocoding
result, keeping `ip` and `org` (src lines 179-182: "기존 IP/통신사 정보는
유지"). -/
def update_place (geo : PlaceRecord) (g : GeoResult) : PlaceRecord :=
  ⟨g.name, g.country, g.lat, g.lon, geo.ip, geo.org⟩

/-- The apply-manual handler (src lines 176-185).  `resp` is the would-be
geocoding response; it is only consulted when the button was pressed and
the stripped input is non-empty.  Returns the new session record, the
feedback shown, and whether `geocode_city` was called. -/
def apply_manual_handler (apply_clicked : Bool) (geo : PlaceRecord)
    (manual_loc : String) (resp : Option (List GeoResult)) :
    PlaceRecord × ApplyFeedback × Bool :=
  if apply_clicked && !(pyStrip manual_loc == "") then
    match geocode_city resp with
    | some g => (update_place geo g, ApplyFeedback.successMsg, true)
    | none => (geo, ApplyFeedback.warningMsg, true)
  else (geo, ApplyFeedback.nothingShown, false)

/-- C6: applying a manual location whose name the geocoder cannot resolve
leaves every field of the session record unchanged and shows a warning
(the handler is total: no exception escapes). -/
theorem manual_apply_unresolvable_keeps_record (geo : PlaceRecord)
    (manual_loc : String) (resp : Option (List GeoResult))
    (hresp : geocode_city resp = none) (h : pyStrip manual_loc ≠ "") :
    apply_manual_handler true geo manual_loc resp =
      (geo, ApplyFeedback.warningMsg, true) := by
  simp [apply_manual_handler, h, hresp]

/-- Witness for C6: an unresolvable name (empty result set) leaves a
concrete record untouched and warns. -/
theorem manual_apply_unresolvable_keeps_record_witness :
    apply_manual_handler true seoul_fallback "Atlantis" (some []) =
      (seoul_fallback, ApplyFeedback.warningMsg, true) :=
  manual_apply_unresolvable_keeps_record seoul_fallback "Atlantis" (some [])
    (by decide) (by decide)

/-- C7: applying a manual location the geocoder resolves overwrites
exactly the place fields (name, country, lat, lon) and preserves the
network fields (ip, org) of the session record. -/
theorem manual_apply_preserves_network_fields (geo : PlaceRecord)
    (manual_loc : String) (resp : Option (List GeoResult)) (g : GeoResult)
    (hresp : geocode_city resp = some g) (h : pyStrip manual_loc ≠ "") :
    apply_manual_handler true geo manual_loc resp =
      (⟨g.name, g.country, g.lat, g.lon, geo.ip, geo.org⟩,
        ApplyFeedback.successMsg, true) := by
  simp [apply_manual_handler, h, hresp, update_place]

/-- Witness for C7: a concrete record with stored ip/org keeps both across
a successful manual override. -/
theorem manual_apply_preserves_network_fields_witness :
    apply_manual_handler true
      ⟨some "서울", some "대한민국", 37.5665, 126.9780, some "1.2.3.4", some "KT"⟩
      "Tokyo" (some [⟨some "Tokyo", some "Japan", 35, 139⟩]) =
      (⟨some "Tokyo", some "Japan", 35, 139, some "1.2.3.4", some "KT"⟩,
        ApplyFeedback.successMsg, true) :=
  manual_apply_preserves_network_fields
    ⟨some "서울", some "대한민국", 37.5665, 126.9780, some "1.2.3.4", some "KT"⟩
    "Tokyo" (some [⟨some "Tokyo", some "Japan", 35, 139⟩]) ⟨some "Tokyo", some "Japan", 35, 139⟩
    (by decide) (by decide)

/- ---------------- WeatherFetcher and the icon-render cycle (src lines 28..47 and 196..201) ---------------- -/

/-- The `current` object of the weather API body, each field read with
`.get` (so possibly `None`). -/
structure CurrentObj where
  temperature_2m : Option Rat
  weather_code : Option Int
  is_day : Option Int
deriving DecidableEq, Repr

/-- The dictionary `fetch_current_weather` builds. -/
structure WeatherSnapshot where
  weather_code : Option Int
  is_day : Option Int
  temperature_2m : Option Rat
deriving DecidableEq, Repr

/-- `fetch_current_weather` (src lines 28-47).  The outer `Option` is the
request outcome (`none`: raised / timed out / non-success status, caught
and turned into `None`); the inner `Option` is whether the body has a
`current` object (`r.json().get("current", \x7b\x7d)` defaults a missing
one to the empty dictionary, whose `.get`s all give `None`). -/
def fetch_current_weather (resp : Option (Option CurrentObj)) :
    Option WeatherSnapshot :=
  match resp with
  | none => none
  | some body =>
    let cur := body.getD ⟨none, none, none⟩
    some ⟨cur.weather_code, cur.is_day, cur.temperature_2m⟩

/-- The icon computation of src lines 196-201: `icon = "💬"`, replaced by
`weather_icon` of the fetched snapshot when a location is set and the
fetch returned a (truthy, always non-empty) dictionary. -/
def compute_icon (geo : Option PlaceRecord) (wxResp : Option (Option CurrentObj)) :
    String :=
  match geo with
  | none => "💬"
  | some _ =>
    match fetch_current_weather wxResp with
    | some wx => weather_icon wx.weather_code wx.is_day
    | none => "💬"

/-- C10: a successful weather response whose body lacks the `current`
object (or any of its fields) still yields a present snapshot with `none`
in each missing field — never an absent result — so the render cycle
treats the fetch as successful and shows the unknown glyph `🌐` instead of
the default chat icon `💬`. -/
theorem missing_current_yields_unknown_glyph (g : PlaceRecord)
    (body : Option CurrentObj) :
    fetch_current_weather (some body) =
      some ⟨(body.getD ⟨none, none, none⟩).weather_code,
            (body.getD ⟨none, none, none⟩).is_day,
            (body.getD ⟨none, none, none⟩).temperature_2m⟩ ∧
    fetch_current_weather (some none) = some ⟨none, none, none⟩ ∧
    compute_icon (some g) (some none) = "🌐" ∧
    compute_icon (some g) (some none) ≠ "💬" := by
  refine ⟨rfl, rfl, rfl, ?_⟩
  have h3 : compute_icon (some g) (some none) = "🌐" := rfl
  rw [h3]
  decide

/- ---------------- ChatSession: one chat turn (src lines 229..248) ---------------- -/

/-- One complete chat turn (src lines 229-248): append the user message,
submit the whole transcript, exhaust the completion stream (`st.write_stream`
returns the concatenation of the yielded fragments), append that
concatenation as one assistant message. -/
def chat_turn (messages : List ChatMessage) (prompt : String)
    (fragments : List String) : List ChatMessage :=
  let messages1 := messages ++ [⟨"user", prompt⟩]
  let response := String.join fragments
  messages1 ++ [⟨"assistant", response⟩]

/-- C3: for every transcript and non-empty input, one chat turn appends
exactly a user message followed by one assistant message (the concatenated
fragments), leaving all prior entries unchanged and in order, so the
length grows by exactly two. -/
theorem chat_turn_appends_user_assistant (messages : List ChatMessage)
    (prompt : String) (fragments : List String) (_hprompt : prompt ≠ "") :
    chat_turn messages prompt fragments =
      messages ++ [⟨"user", prompt⟩, ⟨"assistant", String.join fragments⟩] ∧
    (chat_turn messages prompt fragments).length = messages.length + 2 := by
  constructor
  · simp [chat_turn]
  · simp [chat_turn]

/-- Witness for C3 on a one-message transcript and a two-fragment stream. -/
theorem chat_turn_appends_user_assistant_witness :
    chat_turn [⟨"user", "hi"⟩, ⟨"assistant", "hello"⟩] "what" ["a", "b"] =
      [⟨"user", "hi"⟩, ⟨"assistant", "hello"⟩, ⟨"user", "what"⟩,
        ⟨"assistant", "ab"⟩] ∧
    (chat_turn [⟨"user", "hi"⟩, ⟨"assistant", "hello"⟩] "what" ["a", "b"]).length = 4 :=
  chat_turn_appends_user_assistant [⟨"user", "hi"⟩, ⟨"assistant", "hello"⟩]
    "what" ["a", "b"] (by decide)

/- ---------------- IP-location cache (src line 75, `st.cache_data(ttl=60*30)`) ---------------- -/

/-- Modelled from the spec: the memoization that `st.cache_data(ttl=60*30)`
wraps around `detect_location_by_ip` lives in the streamlit framework, not
in this repository.  Per the spec it is a zero-argument cache with a
30-minute expiry.  The state is the stored entry: population time and
value. -/
structure CacheState where
  entry : Option (Rat × Option PlaceRecord)
deriving DecidableEq, Repr

/-- Result of one call through the cache wrapper. -/
structure CacheResult where
  value : Option PlaceRecord
  state : CacheState
  upstreamCalled : Bool
deriving DecidableEq, Repr

/-- Modelled from the spec: one call through the TTL cache at time `now`
(seconds).  A stored entry younger than `ttl` is returned without calling
upstream; otherwise the upstream computation `compute` runs and its result
is stored. -/
def cached_call (ttl now : Rat) (s : CacheState)
    (compute : Option PlaceRecord) : CacheResult :=
  match s.entry with
  | some (t, v) =>
    if now - t < ttl then ⟨v, s, false⟩
    else ⟨compute, ⟨some (now, compute)⟩, true⟩
  | none => ⟨compute, ⟨some (now, compute)⟩, true⟩

/-- The ttl passed at src line 75: `60 * 30` seconds. -/
def ip_cache_ttl : Rat := 60 * 30

/-- C9: two resolver calls within 30 minutes issue at most one set of
upstream provider calls: the first (cold) call populates the cache, and
the second observes the first call's result without calling upstream. -/
theorem ip_cache_second_call_hits (t0 t1 : Rat) (v v2 : Option PlaceRecord)
    (h : t1 - t0 < ip_cache_ttl) :
    (cached_call ip_cache_ttl t0 ⟨none⟩ v).upstreamCalled = true ∧
    (cached_call ip_cache_ttl t0 ⟨none⟩ v).value = v ∧
    cached_call ip_cache_ttl t1 (cached_call ip_cache_ttl t0 ⟨none⟩ v).state v2 =
      ⟨v, (cached_call ip_cache_ttl t0 ⟨none⟩ v).state, false⟩ := by
  refine ⟨rfl, rfl, ?_⟩
  simp [cached_call, h]

/-- Witness for C9: a second call 10 minutes after a cold first call
returns the cached record without an upstream call. -/
theorem ip_cache_second_call_hits_witness :
    cached_call ip_cache_ttl 600 (cached_call ip_cache_ttl 0 ⟨none⟩ (some seoul_fallback)).state none =
      ⟨some seoul_fallback, (cached_call ip_cache_ttl 0 ⟨none⟩ (some seoul_fallback)).state, false⟩ :=
  (ip_cache_second_call_hits 0 600 (some seoul_fallback) none (by norm_num [ip_cache_ttl])).2.2
